import Mathlib

/-!
Package `group` of freno: consensus bootstrap and leadership monitor.

A shallow embedding of `go/group/raft.go` and `go/group/consensus_service.go`.

Conventions of the embedding
* a Go `string` is a Lean `String`;
* a Go `[]string` is `StringSlice`, where `none` is the nil slice and `some l` a
  non-nil slice holding `l`;
* a Go `error` (and any other interface or pointer value) is an `Option`, where
  `none` is `nil`;
* a run-time panic (nil dereference, failed type assertion) is the `none` result
  of a function whose result type is wrapped in one more `Option`;
* the process-wide state touched by the package (the package variable `store`,
  the `expvar` registry, the `go-metrics` default registry, the debug log) is
  passed explicitly in a `Process` record.
-/

set_option autoImplicit false

namespace Freno

/-! ## Library primitives used by the package -/

/-- Go `strings.HasPrefix` on the character lists of two strings. -/
def hasLead : List Char → List Char → Bool
  | _, [] => true
  | [], _ :: _ => false
  | c :: s, d :: sub => c == d && hasLead s sub

/-- Substring search: does `sub` occur in `s` at some offset. -/
def containsFrom : List Char → List Char → Bool
  | [], sub => hasLead [] sub
  | c :: s, sub => hasLead (c :: s) sub || containsFrom s sub

namespace strings

/-- Go `strings.Contains(s, substr)`: reports whether `substr` is within `s`. -/
def Contains (s substr : String) : Bool :=
  containsFrom s.data substr.data

end strings

/-- Go `%d` verb of `fmt` for an `int`: an optional minus sign and the decimal
digits of the magnitude, without padding. -/
def fmtD (n : Int) : String :=
  match n with
  | Int.ofNat m => String.mk (Nat.toDigits 10 m)
  | Int.negSucc m => "-" ++ String.mk (Nat.toDigits 10 (m + 1))

namespace fmt

/-- Go `fmt.Sprintf("%s:%d", s, d)`. -/
def Sprintf_s_colon_d (s : String) (d : Int) : String :=
  s ++ ":" ++ fmtD d

/-- Go `fmt.Sprintf("%s (this host)", s)`. -/
def Sprintf_s_this_host (s : String) : String :=
  s ++ " (this host)"

/-- Go `fmt.Sprintf("raft leader is %s; state: %s", a, b)`, the message that
`Monitor` hands to `log.Debugf`. -/
def Sprintf_raft_leader_is (a b : String) : String :=
  "raft leader is " ++ a ++ "; state: " ++ b

/-- Go `fmt.Sprintf("failed to open raft store: %s", s)`, the message that
`SetupRaft` hands to `log.Errorf`. -/
def Sprintf_failed_to_open (s : String) : String :=
  "failed to open raft store: " ++ s

end fmt

/-! ## Configuration -/

/-- Go slice of strings; `none` is the nil slice. -/
abbrev StringSlice := Option (List String)

/-- The elements a `for ... range` loop visits: none for a nil slice. -/
def StringSlice.elems : StringSlice → List String
  | none => []
  | some l => l

/-- Go builtin `append(s, x)` for one element: the result is never nil. -/
def goAppend (s : StringSlice) (x : String) : StringSlice :=
  some (s.elems ++ [x])

/-- The fields of `config.Settings()` that the package reads. `DefaultRaftPort`
is a Go `int`. -/
structure ConfigurationSettings where
  RaftBind : String
  RaftDataDir : String
  DefaultRaftPort : Int
  RaftNodes : StringSlice

/-- Source `normalizeRaftNode`: attempts to make sure there is a port to the
given node, consulting `DefaultRaftPort` when there is not. -/
def normalizeRaftNode (settings : ConfigurationSettings) (node : String) : String :=
  if strings.Contains node ":" then
    node
  else if settings.DefaultRaftPort == 0 then
    node
  else
    fmt.Sprintf_s_colon_d node settings.DefaultRaftPort

/-! ## The Raft engine and the store -/

/-- Go `raft.RaftState` of `hashicorp/raft`: the four roles a node reports. -/
inductive RaftState where
  | Follower
  | Candidate
  | Leader
  | Shutdown
  deriving DecidableEq, Repr

/-- Go `(raft.RaftState).String()`. -/
def RaftState.String : RaftState → String
  | .Follower => "Follower"
  | .Candidate => "Candidate"
  | .Leader => "Leader"
  | .Shutdown => "Shutdown"

/-- What a `*raft.Raft` answers when sampled: `Leader()` and `State()`. The two
fields are independent, as the engine gives no relation between them. -/
structure Raft where
  Leader : String
  State : RaftState
  deriving DecidableEq, Repr

/-- The `Store` object of the package. Of its fields this file reads only
`raft`, a `*raft.Raft` that is nil until the store has been opened. -/
structure Store where
  raft : Option Raft
  deriving DecidableEq, Repr

/-- A `*throttle.Throttler`, known here only by its identity. -/
structure Throttler where
  ptr : Nat
  deriving DecidableEq, Repr

/-- A non-nil Go `error`, known by its `Error()` text. -/
structure GoError where
  Error : String
  deriving DecidableEq, Repr

/-- The functions of the package that `SetupRaft` calls and that are declared
outside this file: `NewStore(raftDir, raftBind, throttler)` and the method
`(*Store).Open(peerNodes)`, which may change the store and returns an `error`. -/
structure StoreOps where
  NewStore : String → String → Throttler → Store
  Open : Store → StringSlice → Store × Option GoError

/-- A call made by `SetupRaft` into `StoreOps`, with the arguments it received. -/
inductive Call where
  | NewStore (raftDir raftBind : String) (throttler : Throttler)
  | Open (peerNodes : StringSlice)
  deriving DecidableEq, Repr

/-! ## Process-wide state -/

/-- A variable of the `expvar` registry: an `*expvar.String` with its value, or
a variable of any other dynamic type. -/
inductive ExpVar where
  | StringVar (value : String)
  | OtherVar
  deriving DecidableEq, Repr

/-- Levels of `golib/log` used by the package. -/
inductive LogLevel where
  | ERROR
  | DEBUG
  deriving DecidableEq, Repr

/-- The process-wide state the package reads and writes: the package variable
`store` (nil until `SetupRaft` runs), the `expvar` registry, the gauges of the
`go-metrics` default registry, and the entries handed to the logger. -/
structure Process where
  store : Option Store
  expvars : String → Option ExpVar
  gauges : String → Option Int
  logged : List (LogLevel × String)

/-- Point update of a registry. -/
def setKey {α : Type} (m : String → Option α) (k : String) (v : α) : String → Option α :=
  fun k2 => if k2 = k then some v else m k2

namespace log

/-- Go `log.Errorf` of `golib/log` applied to an already formatted message:
records the entry at level ERROR and returns it as a non-nil `error`. -/
def Errorf (p : Process) (message : String) : Process × Option GoError :=
  ({ p with logged := p.logged ++ [(LogLevel.ERROR, message)] }, some ⟨message⟩)

/-- Go `log.Debugf` of `golib/log` applied to an already formatted message. -/
def Debugf (p : Process) (message : String) : Process :=
  { p with logged := p.logged ++ [(LogLevel.DEBUG, message)] }

end log

namespace metrics

/-- Go `metrics.GetOrRegisterGauge(name, nil).Update(v)`: the gauge is created
when absent and then holds `v`. -/
def GetOrRegisterGauge_Update (p : Process) (name : String) (v : Int) : Process :=
  { p with gauges := setKey p.gauges name v }

end metrics

/-! ## Bootstrap -/

/-- What `SetupRaft` leaves behind: the returned `ConsensusService` (`none` is
nil), the returned `error`, the process state, and the calls it made into
`StoreOps` in order. -/
structure SetupOutcome where
  service : Option Store
  err : Option GoError
  proc : Process
  calls : List Call

/-- The loop of `SetupRaft` that builds `peerNodes`, starting from the non-nil
empty slice `[]string{}`. -/
def peerNodesOf (settings : ConfigurationSettings) : StringSlice :=
  settings.RaftNodes.elems.foldl
    (fun peerNodes raftNode => goAppend peerNodes (normalizeRaftNode settings raftNode))
    (some [])

/-- Source `SetupRaft`: creates the store, assigns it to the package variable,
opens it against the peer nodes, and returns it unless opening failed. -/
def SetupRaft (ops : StoreOps) (settings : ConfigurationSettings) (throttler : Throttler)
    (p : Process) : SetupOutcome :=
  let raftBind := normalizeRaftNode settings settings.RaftBind
  let store := ops.NewStore settings.RaftDataDir raftBind throttler
  let peerNodes := peerNodesOf settings
  let opened := ops.Open store peerNodes
  let p1 : Process := { p with store := some opened.1 }
  let calls := [Call.NewStore settings.RaftDataDir raftBind throttler, Call.Open peerNodes]
  match opened.2 with
  | some err =>
    let logged := log.Errorf p1 (fmt.Sprintf_failed_to_open err.Error)
    { service := none, err := logged.2, proc := logged.1, calls := calls }
  | none =>
    { service := some opened.1, err := none, proc := p1, calls := calls }

/-! ## Leadership queries and the monitor -/

/-- Source `getRaft`: `store.raft`. The outer `none` is the panic on a nil
`store`; the inner `none` is a nil `*raft.Raft`. -/
def getRaft (p : Process) : Option (Option Raft) :=
  match p.store with
  | none => none
  | some s => some s.raft

/-- Source `GetLeader`: `getRaft().Leader()`; `none` is a panic. -/
def GetLeader (p : Process) : Option String := do
  let r ← getRaft p
  let r ← r
  pure r.Leader

/-- Source `GetState`: `getRaft().State()`; `none` is a panic. -/
def GetState (p : Process) : Option RaftState := do
  let r ← getRaft p
  let r ← r
  pure r.State

/-- Source `IsLeader`: `GetState() == raft.Leader`; `none` is a panic. -/
def IsLeader (p : Process) : Option Bool := do
  let state ← GetState p
  pure (state == RaftState.Leader)

/-- The statements of `Monitor` that publish the leader hint: `expvar.Get`,
`expvar.NewString` when the variable is absent, the type assertion to
`*expvar.String` (a panic, `none`, on any other variable) and `Set`. -/
def publishLeader (p : Process) (leaderHint : String) : Option Process :=
  let registered : ExpVar :=
    match p.expvars "raft.leader" with
    | none => ExpVar.StringVar ""
    | some v => v
  match registered with
  | ExpVar.StringVar _ =>
    some { p with expvars := setKey p.expvars "raft.leader" (ExpVar.StringVar leaderHint) }
  | ExpVar.OtherVar => none

/-- One tick of source `Monitor`: the body of `case <-t.C:`, which the endless
loop of `Monitor` runs at every firing of its 5 second ticker. The result
carries the process state after the tick; `none` is a panic. -/
def MonitorTick (p : Process) : Option Process := do
  let leaderHint ← GetLeader p
  let p ← publishLeader p leaderHint
  let state ← GetState p
  let (leaderHint, p) :=
    if state = RaftState.Leader then
      (fmt.Sprintf_s_this_host leaderHint, metrics.GetOrRegisterGauge_Update p "raft.is_leader" 1)
    else
      (leaderHint, metrics.GetOrRegisterGauge_Update p "raft.is_leader" 0)
  let p :=
    match state with
    | RaftState.Leader | RaftState.Follower =>
      metrics.GetOrRegisterGauge_Update p "raft.is_healthy" 1
    | _ => metrics.GetOrRegisterGauge_Update p "raft.is_healthy" 0
  pure (log.Debugf p (fmt.Sprintf_raft_leader_is leaderHint state.String))

/-- The peer lists that `SetupRaft` passed to `store.Open`, in call order. -/
def openedWith (o : SetupOutcome) : List StringSlice :=
  o.calls.filterMap (fun c =>
    match c with
    | Call.Open peerNodes => some peerNodes
    | Call.NewStore _ _ _ => none)

/-- The argument triples that `SetupRaft` passed to `NewStore`, in call order. -/
def storeCreatedWith (o : SetupOutcome) : List (String × String × Throttler) :=
  o.calls.filterMap (fun c =>
    match c with
    | Call.NewStore raftDir raftBind throttler => some (raftDir, raftBind, throttler)
    | Call.Open _ => none)

/-! ## Concrete inputs -/

/-- A backend whose `Open` installs a follower engine and fails on an empty
peer list. -/
def sampleOps : StoreOps :=
  { NewStore := fun _ _ _ => ⟨none⟩,
    Open := fun _ peers =>
      (⟨some ⟨"", RaftState.Follower⟩⟩, if peers = some [] then some ⟨"no peers"⟩ else none) }

/-- A fresh process: no store, empty registries, empty log. -/
def freshProcess : Process :=
  { store := none, expvars := fun _ => none, gauges := fun _ => none, logged := [] }

/-- A process whose opened store samples as `r`. -/
def processOf (r : Raft) : Process :=
  { freshProcess with store := some ⟨some r⟩ }

/-- A process that has already been monitored: its store samples as `r`, the
variable `raft.leader` holds an older hint and every gauge holds 1. -/
def monitoredProcess (r : Raft) : Process :=
  { store := some ⟨some r⟩,
    expvars := setKey (fun _ => none) "raft.leader" (ExpVar.StringVar "old:10008"),
    gauges := fun _ => some 1,
    logged := [] }

/-- Settings with a bind address without port and a default port. -/
def sampleSettings : ConfigurationSettings :=
  { RaftBind := "localhost", RaftDataDir := "/var/lib/freno", DefaultRaftPort := 10008,
    RaftNodes := some ["node1", "node2:9000"] }

/-! ## Lemmas on the library primitives -/

theorem hasLead_single (c : Char) (s : List Char) :
    hasLead s [c] = true ↔ s.head? = some c := by
  cases s with
  | nil => simp [hasLead]
  | cons d t => simp [hasLead]

theorem containsFrom_single (c : Char) (s : List Char) :
    containsFrom s [c] = true ↔ c ∈ s := by
  induction s with
  | nil => simp [containsFrom, hasLead]
  | cons d t ih =>
    simp only [containsFrom, Bool.or_eq_true, ih, hasLead_single, List.head?_cons,
      Option.some.injEq, List.mem_cons]
    constructor
    · rintro (h | h)
      · exact Or.inl h.symm
      · exact Or.inr h
    · rintro (h | h)
      · exact Or.inl h.symm
      · exact Or.inr h

/-- The test `strings.Contains(node, ":")` holds exactly when the colon is one
of the characters of `node`. -/
theorem Contains_colon (node : String) :
    strings.Contains node ":" = true ↔ ':' ∈ node.data := by
  unfold strings.Contains
  exact containsFrom_single ':' node.data

theorem Contains_Sprintf_s_colon_d (node : String) (d : Int) :
    strings.Contains (fmt.Sprintf_s_colon_d node d) ":" = true := by
  rw [Contains_colon]
  simp [fmt.Sprintf_s_colon_d]

theorem append_ne_self (s t : String) (h : t ≠ "") : s ++ t ≠ s := by
  intro e
  apply h
  have e2 : (s ++ t).data = s.data := by rw [e]
  rw [String.data_append, List.append_right_eq_self] at e2
  exact String.ext e2

theorem Sprintf_s_colon_d_ne (node : String) (d : Int) :
    fmt.Sprintf_s_colon_d node d ≠ node := by
  unfold fmt.Sprintf_s_colon_d
  rw [String.append_assoc]
  apply append_ne_self
  intro e
  have e2 : (":" ++ fmtD d).data = "".data := by rw [e]
  simp at e2

theorem peerNodes_fold (f : String → String) (l acc : List String) :
    l.foldl (fun peerNodes raftNode => goAppend peerNodes (f raftNode)) (some acc)
      = some (acc ++ l.map f) := by
  induction l generalizing acc with
  | nil => simp
  | cons x t ih =>
    have step : goAppend (some acc) (f x) = some (acc ++ [f x]) := rfl
    rw [List.foldl_cons, step, ih]
    simp

theorem peerNodesOf_eq (settings : ConfigurationSettings) :
    peerNodesOf settings = some (settings.RaftNodes.elems.map (normalizeRaftNode settings)) := by
  unfold peerNodesOf
  rw [peerNodes_fold]
  simp

theorem SetupRaft_calls (ops : StoreOps) (settings : ConfigurationSettings)
    (throttler : Throttler) (p : Process) :
    (SetupRaft ops settings throttler p).calls =
      [Call.NewStore settings.RaftDataDir (normalizeRaftNode settings settings.RaftBind)
          throttler,
        Call.Open (peerNodesOf settings)] := by
  unfold SetupRaft
  cases h : (ops.Open
      (ops.NewStore settings.RaftDataDir
        (normalizeRaftNode settings settings.RaftBind) throttler)
      (peerNodesOf settings)).2 with
  | none => simp [h]
  | some e => simp [h]

theorem SetupRaft_store (ops : StoreOps) (settings : ConfigurationSettings)
    (throttler : Throttler) (p : Process) :
    (SetupRaft ops settings throttler p).proc.store =
      some (ops.Open
        (ops.NewStore settings.RaftDataDir
          (normalizeRaftNode settings settings.RaftBind) throttler)
        (peerNodesOf settings)).1 := by
  unfold SetupRaft
  cases h : (ops.Open
      (ops.NewStore settings.RaftDataDir
        (normalizeRaftNode settings settings.RaftBind) throttler)
      (peerNodesOf settings)).2 with
  | none => simp [h]
  | some e => simp [h, log.Errorf]

/-! ## Address normalization -/

/-- C1: `normalizeRaftNode` is characterised by three cases, for every node and
every `DefaultRaftPort`: a node containing a colon is returned unchanged; a node
without colon is returned unchanged when `DefaultRaftPort` is 0; a node without
colon gets a colon and the decimal rendering of `DefaultRaftPort` appended when
that port is not 0. -/
theorem normalizeRaftNode_cases (settings : ConfigurationSettings) (node : String) :
    (':' ∈ node.data → normalizeRaftNode settings node = node) ∧
    (':' ∉ node.data → settings.DefaultRaftPort = 0 →
      normalizeRaftNode settings node = node) ∧
    (':' ∉ node.data → settings.DefaultRaftPort ≠ 0 →
      normalizeRaftNode settings node = node ++ ":" ++ fmtD settings.DefaultRaftPort) := by
  refine ⟨?_, ?_, ?_⟩
  · intro h
    have hc := (Contains_colon node).mpr h
    simp [normalizeRaftNode, hc]
  · intro h h0
    simp [normalizeRaftNode, h0]
  · intro h h0
    have hc : strings.Contains node ":" = false := by
      cases e : strings.Contains node ":" with
      | false => rfl
      | true => exact absurd ((Contains_colon node).mp e) h
    simp [normalizeRaftNode, hc, h0, fmt.Sprintf_s_colon_d]

/-- The three cases of C1 at `node2:9000`, at `node1` with port 0 and at `node1`
with port 10008. -/
theorem normalizeRaftNode_cases_witness :
    normalizeRaftNode sampleSettings "node2:9000" = "node2:9000" ∧
    normalizeRaftNode { sampleSettings with DefaultRaftPort := 0 } "node1" = "node1" ∧
    normalizeRaftNode sampleSettings "node1" = "node1:10008" :=
  ⟨(normalizeRaftNode_cases sampleSettings "node2:9000").1 (by decide),
   (normalizeRaftNode_cases { sampleSettings with DefaultRaftPort := 0 } "node1").2.1
     (by decide) rfl,
   (normalizeRaftNode_cases sampleSettings "node1").2.2 (by decide) (by decide)⟩

/-- C10: `normalizeRaftNode` is idempotent under a fixed configuration, so an
address that was normalized once never receives a second port suffix. -/
theorem normalizeRaftNode_idempotent (settings : ConfigurationSettings) (node : String) :
    normalizeRaftNode settings (normalizeRaftNode settings node)
      = normalizeRaftNode settings node := by
  by_cases hc : strings.Contains node ":" = true
  · simp [normalizeRaftNode, hc]
  · by_cases h0 : settings.DefaultRaftPort = 0
    · simp [normalizeRaftNode, h0]
    · have e : normalizeRaftNode settings node
          = fmt.Sprintf_s_colon_d node settings.DefaultRaftPort := by
        simp [normalizeRaftNode, hc, h0]
      rw [e]
      simp [normalizeRaftNode, Contains_Sprintf_s_colon_d]

/-! ## Bootstrap -/

/-- C2: `SetupRaft` opens the store against the normalized peer set. The one
call of `store.Open` receives a non-nil list. For a nil `RaftNodes` that list is
empty; for a `RaftNodes` holding `nodes` it has the length of `nodes`, holds at
every index the normalization of the node configured at that index, and is
empty exactly when `nodes` is. The store left in the package variable is the
one opened against that list. -/
theorem SetupRaft_opens_normalized_peers (ops : StoreOps) (settings : ConfigurationSettings)
    (throttler : Throttler) (p : Process) :
    ∃ peers : List String,
      openedWith (SetupRaft ops settings throttler p) = [some peers] ∧
      (SetupRaft ops settings throttler p).proc.store =
        some (ops.Open
          (ops.NewStore settings.RaftDataDir
            (normalizeRaftNode settings settings.RaftBind) throttler)
          (some peers)).1 ∧
      (match settings.RaftNodes with
        | none => peers = []
        | some nodes =>
          peers = nodes.map (normalizeRaftNode settings) ∧
          peers.length = nodes.length ∧
          (∀ i : Nat, peers[i]? = (nodes[i]?).map (normalizeRaftNode settings)) ∧
          (peers = [] ↔ nodes = [])) := by
  refine ⟨settings.RaftNodes.elems.map (normalizeRaftNode settings), ?_, ?_, ?_⟩
  · simp [openedWith, SetupRaft_calls, peerNodesOf_eq]
  · rw [SetupRaft_store, peerNodesOf_eq]
  · cases h : settings.RaftNodes with
    | none => simp [StringSlice.elems]
    | some nodes => simp [StringSlice.elems]

/-- C2 at two configured nodes, one without port and one with: `store.Open`
receives `node1:10008` and `node2:9000`, in that order. -/
theorem SetupRaft_opens_normalized_peers_witness :
    ∃ peers : List String,
      openedWith (SetupRaft sampleOps sampleSettings ⟨0⟩ freshProcess) = [some peers] ∧
      peers = ["node1:10008", "node2:9000"] ∧
      peers.length = 2 ∧
      peers[0]? = some "node1:10008" ∧
      peers[1]? = some "node2:9000" := by
  obtain ⟨peers, h1, _, h3⟩ :=
    SetupRaft_opens_normalized_peers sampleOps sampleSettings ⟨0⟩ freshProcess
  have h4 : peers = ["node1", "node2:9000"].map (normalizeRaftNode sampleSettings) ∧
      peers.length = 2 ∧
      (∀ i : Nat, peers[i]? =
        (["node1", "node2:9000"][i]?).map (normalizeRaftNode sampleSettings)) ∧
      (peers = [] ↔ ["node1", "node2:9000"] = []) := h3
  exact ⟨peers, h1, h4.1.trans (by decide), h4.2.1,
    (h4.2.2.1 0).trans (by decide), (h4.2.2.1 1).trans (by decide)⟩

/-- Counterexample to C3 as stated: with `RaftBind = "localhost"` and
`DefaultRaftPort = 10008` the bind address handed to `NewStore` is
`localhost:10008`, not the configured `RaftBind`. -/
theorem SetupRaft_bind_unchanged_counterexample :
    storeCreatedWith (SetupRaft sampleOps sampleSettings ⟨0⟩ freshProcess)
        = [("/var/lib/freno", "localhost:10008", ⟨0⟩)] ∧
    sampleSettings.RaftBind = "localhost" ∧
    ¬ ((storeCreatedWith (SetupRaft sampleOps sampleSettings ⟨0⟩ freshProcess)).map
        (fun args => args.2.1) = [sampleSettings.RaftBind]) := by
  decide

/-- C3, amended: `SetupRaft` normalizes the bind address with the same rule as
the peer addresses. The one call of `NewStore` receives the configured data
directory, `normalizeRaftNode` of `RaftBind` and the throttler; that bind
address is `RaftBind` unchanged exactly when `RaftBind` contains a colon or
`DefaultRaftPort` is 0, and is `RaftBind`, a colon and the decimal port exactly
when `RaftBind` has no colon and `DefaultRaftPort` is not 0. -/
theorem SetupRaft_bind_normalized (ops : StoreOps) (settings : ConfigurationSettings)
    (throttler : Throttler) (p : Process) :
    storeCreatedWith (SetupRaft ops settings throttler p) =
        [(settings.RaftDataDir, normalizeRaftNode settings settings.RaftBind, throttler)] ∧
    (normalizeRaftNode settings settings.RaftBind = settings.RaftBind ↔
      (':' ∈ settings.RaftBind.data ∨ settings.DefaultRaftPort = 0)) ∧
    (normalizeRaftNode settings settings.RaftBind
        = settings.RaftBind ++ ":" ++ fmtD settings.DefaultRaftPort ↔
      (':' ∉ settings.RaftBind.data ∧ settings.DefaultRaftPort ≠ 0)) := by
  have key : ∀ node : String,
      (':' ∈ node.data ∨ settings.DefaultRaftPort = 0) →
        normalizeRaftNode settings node = node := by
    intro node h
    rcases h with h | h
    · have hc := (Contains_colon node).mpr h
      simp [normalizeRaftNode, hc]
    · simp [normalizeRaftNode, h]
  have key2 : ∀ node : String,
      (':' ∉ node.data ∧ settings.DefaultRaftPort ≠ 0) →
        normalizeRaftNode settings node
          = fmt.Sprintf_s_colon_d node settings.DefaultRaftPort := by
    intro node h
    have hc : strings.Contains node ":" = false := by
      cases e : strings.Contains node ":" with
      | false => rfl
      | true => exact absurd ((Contains_colon node).mp e) h.1
    simp [normalizeRaftNode, hc, h.2]
  refine ⟨?_, ?_, ?_⟩
  · simp [storeCreatedWith, SetupRaft_calls]
  · constructor
    · intro e
      by_contra hn
      rw [not_or] at hn
      rw [key2 _ hn] at e
      exact Sprintf_s_colon_d_ne _ _ e
    · exact key _
  · constructor
    · intro e
      by_contra hn
      have h : ':' ∈ settings.RaftBind.data ∨ settings.DefaultRaftPort = 0 := by
        by_cases hc : ':' ∈ settings.RaftBind.data
        · exact Or.inl hc
        · right
          by_contra h0
          exact hn ⟨hc, h0⟩
      rw [key _ h] at e
      exact Sprintf_s_colon_d_ne settings.RaftBind settings.DefaultRaftPort e.symm
    · intro h
      rw [key2 _ h]
      rfl

/-- Counterexample to C4 as stated: with a nil `RaftNodes` the sample backend
fails to open, `SetupRaft` returns a nil service and a non-nil error, and yet
the package variable `store`, nil before the call, holds the store whose `Open`
failed. The package-level queries read that store: `GetState` answers Follower
and a monitor tick on the resulting process sets `raft.is_healthy` to 1. -/
theorem SetupRaft_failure_keeps_store_counterexample :
    (SetupRaft sampleOps { sampleSettings with RaftNodes := none } ⟨0⟩ freshProcess).service
        = none ∧
    (SetupRaft sampleOps { sampleSettings with RaftNodes := none } ⟨0⟩ freshProcess).err
        = some ⟨"failed to open raft store: no peers"⟩ ∧
    freshProcess.store = none ∧
    (SetupRaft sampleOps { sampleSettings with RaftNodes := none } ⟨0⟩ freshProcess).proc.store
        = some ⟨some ⟨"", RaftState.Follower⟩⟩ ∧
    ¬ ((SetupRaft sampleOps { sampleSettings with RaftNodes := none } ⟨0⟩
        freshProcess).proc.store = none) ∧
    GetState
        (SetupRaft sampleOps { sampleSettings with RaftNodes := none } ⟨0⟩ freshProcess).proc
        = some RaftState.Follower ∧
    (MonitorTick
        (SetupRaft sampleOps { sampleSettings with RaftNodes := none } ⟨0⟩
          freshProcess).proc).map (fun p2 => p2.gauges "raft.is_healthy")
        = some (some 1) := by
  decide

/-- C4, amended: `SetupRaft` returns a nil service together with a non-nil error
if and only if `store.Open` on the peer nodes returned an error, and it returns
the opened store together with a nil error if and only if `store.Open` returned
no error. In both cases, failure included, the package variable `store` is left
holding the store that `Open` was called on, so it is never nil after the call:
on failure no service is returned, and the failed store stays reachable through
the package variable. -/
theorem SetupRaft_fails_iff_Open_fails (ops : StoreOps) (settings : ConfigurationSettings)
    (throttler : Throttler) (p : Process) :
    (((SetupRaft ops settings throttler p).service = none ∧
        (SetupRaft ops settings throttler p).err ≠ none) ↔
      (ops.Open
        (ops.NewStore settings.RaftDataDir
          (normalizeRaftNode settings settings.RaftBind) throttler)
        (peerNodesOf settings)).2 ≠ none) ∧
    (((SetupRaft ops settings throttler p).service =
        some (ops.Open
          (ops.NewStore settings.RaftDataDir
            (normalizeRaftNode settings settings.RaftBind) throttler)
          (peerNodesOf settings)).1 ∧
        (SetupRaft ops settings throttler p).err = none) ↔
      (ops.Open
        (ops.NewStore settings.RaftDataDir
          (normalizeRaftNode settings settings.RaftBind) throttler)
        (peerNodesOf settings)).2 = none) ∧
    (SetupRaft ops settings throttler p).proc.store =
      some (ops.Open
        (ops.NewStore settings.RaftDataDir
          (normalizeRaftNode settings settings.RaftBind) throttler)
        (peerNodesOf settings)).1 ∧
    (SetupRaft ops settings throttler p).proc.store ≠ none := by
  refine ⟨?_, ?_, SetupRaft_store ops settings throttler p, ?_⟩
  · unfold SetupRaft
    cases h : (ops.Open
        (ops.NewStore settings.RaftDataDir
          (normalizeRaftNode settings settings.RaftBind) throttler)
        (peerNodesOf settings)).2 with
    | none => simp [h]
    | some e => simp [h, log.Errorf]
  · unfold SetupRaft
    cases h : (ops.Open
        (ops.NewStore settings.RaftDataDir
          (normalizeRaftNode settings settings.RaftBind) throttler)
        (peerNodesOf settings)).2 with
    | none => simp [h]
    | some e => simp [h, log.Errorf]
  · rw [SetupRaft_store]
    simp

/-! ## Leadership queries and the monitor -/

theorem GetState_of_raft (p : Process) (st : Store) (r : Raft)
    (hs : p.store = some st) (hr : st.raft = some r) : GetState p = some r.State := by
  simp [GetState, getRaft, hs, hr]

theorem GetLeader_of_raft (p : Process) (st : Store) (r : Raft)
    (hs : p.store = some st) (hr : st.raft = some r) : GetLeader p = some r.Leader := by
  simp [GetLeader, getRaft, hs, hr]

theorem publishLeader_of_string (p : Process) (leaderHint : String)
    (hv : p.expvars "raft.leader" ≠ some ExpVar.OtherVar) :
    publishLeader p leaderHint =
      some { p with
        expvars := setKey p.expvars "raft.leader" (ExpVar.StringVar leaderHint) } := by
  unfold publishLeader
  cases h : p.expvars "raft.leader" with
  | none => simp
  | some v =>
    cases v with
    | StringVar _ => simp
    | OtherVar => exact absurd h hv

/-- The state after one tick, for a process whose store is open and whose
variable `raft.leader` is absent or a string variable. -/
theorem MonitorTick_eq (p : Process) (st : Store) (r : Raft)
    (hs : p.store = some st) (hr : st.raft = some r)
    (hv : p.expvars "raft.leader" ≠ some ExpVar.OtherVar) :
    MonitorTick p = some
      { store := p.store,
        expvars := setKey p.expvars "raft.leader" (ExpVar.StringVar r.Leader),
        gauges :=
          setKey
            (setKey p.gauges "raft.is_leader" (if r.State = RaftState.Leader then 1 else 0))
            "raft.is_healthy"
            (if r.State = RaftState.Leader ∨ r.State = RaftState.Follower then 1 else 0),
        logged := p.logged ++
          [(LogLevel.DEBUG,
            fmt.Sprintf_raft_leader_is
              (if r.State = RaftState.Leader then fmt.Sprintf_s_this_host r.Leader
                else r.Leader)
              r.State.String)] } := by
  have hs2 : ({ p with
      expvars := setKey p.expvars "raft.leader" (ExpVar.StringVar r.Leader) } : Process).store
        = some st := hs
  unfold MonitorTick
  rw [GetLeader_of_raft p st r hs hr]
  simp only [Option.bind_eq_bind, Option.some_bind]
  rw [publishLeader_of_string p r.Leader hv]
  simp only [Option.some_bind]
  rw [GetState_of_raft _ st r hs2 hr]
  simp only [Option.some_bind]
  cases hst : r.State <;>
    simp [metrics.GetOrRegisterGauge_Update, log.Debugf]

theorem raft_of_GetState (p : Process) (role : RaftState) (h : GetState p = some role) :
    ∃ st r, p.store = some st ∧ st.raft = some r ∧ r.State = role := by
  unfold GetState getRaft at h
  cases hs : p.store with
  | none => simp [hs] at h
  | some st =>
    cases hr : st.raft with
    | none => simp [hs, hr] at h
    | some r =>
      refine ⟨st, r, rfl, hr, ?_⟩
      simpa [hs, hr] using h

/-- C5: `IsLeader` returns true if and only if the role reported by `GetState`
is Leader; for each of the roles Follower, Candidate and Shutdown it returns
false; it returns a value whenever `GetState` does. -/
theorem IsLeader_iff_Leader (p : Process) :
    (IsLeader p = some true ↔ GetState p = some RaftState.Leader) ∧
    (GetState p = some RaftState.Follower → IsLeader p = some false) ∧
    (GetState p = some RaftState.Candidate → IsLeader p = some false) ∧
    (GetState p = some RaftState.Shutdown → IsLeader p = some false) ∧
    ((IsLeader p).isSome = (GetState p).isSome) := by
  unfold IsLeader
  cases h : GetState p with
  | none => simp
  | some role => cases role <;> simp

/-- C5 at the four roles of an opened store. -/
theorem IsLeader_iff_Leader_witness :
    IsLeader (processOf ⟨"node1:10008", RaftState.Leader⟩) = some true ∧
    IsLeader (processOf ⟨"node1:10008", RaftState.Follower⟩) = some false ∧
    IsLeader (processOf ⟨"node1:10008", RaftState.Candidate⟩) = some false ∧
    IsLeader (processOf ⟨"node1:10008", RaftState.Shutdown⟩) = some false :=
  ⟨(IsLeader_iff_Leader (processOf ⟨"node1:10008", RaftState.Leader⟩)).1.mpr (by decide),
   (IsLeader_iff_Leader (processOf ⟨"node1:10008", RaftState.Follower⟩)).2.1 (by decide),
   (IsLeader_iff_Leader (processOf ⟨"node1:10008", RaftState.Candidate⟩)).2.2.1 (by decide),
   (IsLeader_iff_Leader (processOf ⟨"node1:10008", RaftState.Shutdown⟩)).2.2.2.1 (by decide)⟩

/-- C6: on a tick of `Monitor` that samples the role `role`, whatever the gauges
held before, the tick completes and leaves the gauge `raft.is_healthy` at 1 if
and only if `role` is Leader or Follower, and at 0 if and only if `role` is
Candidate or Shutdown. The tick is one whose variable `raft.leader` is absent
or a string variable. -/
theorem MonitorTick_is_healthy (p : Process) (role : RaftState)
    (hstate : GetState p = some role)
    (hv : p.expvars "raft.leader" ≠ some ExpVar.OtherVar) :
    ∃ p2, MonitorTick p = some p2 ∧
      p2.gauges "raft.is_healthy"
        = some (if role = RaftState.Leader ∨ role = RaftState.Follower then 1 else 0) ∧
      (p2.gauges "raft.is_healthy" = some 1 ↔
        (role = RaftState.Leader ∨ role = RaftState.Follower)) ∧
      (p2.gauges "raft.is_healthy" = some 0 ↔
        (role = RaftState.Candidate ∨ role = RaftState.Shutdown)) := by
  obtain ⟨st, r, hs, hr, hrole⟩ := raft_of_GetState p role hstate
  refine ⟨_, MonitorTick_eq p st r hs hr hv, ?_, ?_, ?_⟩ <;>
    cases role <;> simp [setKey, hrole]

/-- C6 on a process whose gauges all held 1: a Candidate sample leaves
`raft.is_healthy` at 0. -/
theorem MonitorTick_is_healthy_witness :
    ∃ p2, MonitorTick (monitoredProcess ⟨"node1:10008", RaftState.Candidate⟩) = some p2 ∧
      p2.gauges "raft.is_healthy" = some 0 := by
  obtain ⟨p2, h1, _, _, h4⟩ :=
    MonitorTick_is_healthy (monitoredProcess ⟨"node1:10008", RaftState.Candidate⟩)
      RaftState.Candidate (by decide) (by decide)
  exact ⟨p2, h1, h4.mpr (Or.inl rfl)⟩

/-- C7: on a tick of `Monitor` that samples the role `role`, whatever the gauges
held before and whatever the leader hint is, the tick completes and leaves the
gauge `raft.is_leader` at 1 if and only if `role` is Leader, and at 0 if and
only if `role` is Follower, Candidate or Shutdown. The tick is one whose
variable `raft.leader` is absent or a string variable. -/
theorem MonitorTick_is_leader (p : Process) (role : RaftState)
    (hstate : GetState p = some role)
    (hv : p.expvars "raft.leader" ≠ some ExpVar.OtherVar) :
    ∃ p2, MonitorTick p = some p2 ∧
      p2.gauges "raft.is_leader" = some (if role = RaftState.Leader then 1 else 0) ∧
      (p2.gauges "raft.is_leader" = some 1 ↔ role = RaftState.Leader) ∧
      (p2.gauges "raft.is_leader" = some 0 ↔
        (role = RaftState.Follower ∨ role = RaftState.Candidate ∨
          role = RaftState.Shutdown)) := by
  obtain ⟨st, r, hs, hr, hrole⟩ := raft_of_GetState p role hstate
  refine ⟨_, MonitorTick_eq p st r hs hr hv, ?_, ?_, ?_⟩ <;>
    cases role <;> simp [setKey, hrole]

/-- C7 on a process whose gauges all held 1: a Follower sample leaves
`raft.is_leader` at 0. -/
theorem MonitorTick_is_leader_witness :
    ∃ p2, MonitorTick (monitoredProcess ⟨"node1:10008", RaftState.Follower⟩) = some p2 ∧
      p2.gauges "raft.is_leader" = some 0 := by
  obtain ⟨p2, h1, _, _, h4⟩ :=
    MonitorTick_is_leader (monitoredProcess ⟨"node1:10008", RaftState.Follower⟩)
      RaftState.Follower (by decide) (by decide)
  exact ⟨p2, h1, h4.mpr (Or.inl rfl)⟩

/-- C9: on a tick of `Monitor` with leader hint `hint` and role `role`, the tick
completes, the variable `raft.leader` holds exactly `hint` whatever string it
held before, and one debug entry is logged whose hint is `hint` followed by
` (this host)` if and only if `role` is Leader and is `hint` itself if and only
if it is not. The published value is never the annotated hint. The tick is one
whose variable `raft.leader` is absent or a string variable. -/
theorem MonitorTick_publishes_raw_leader (p : Process) (hint : String) (role : RaftState)
    (hleader : GetLeader p = some hint) (hstate : GetState p = some role)
    (hv : p.expvars "raft.leader" ≠ some ExpVar.OtherVar) :
    ∃ p2 logHint, MonitorTick p = some p2 ∧
      p2.expvars "raft.leader" = some (ExpVar.StringVar hint) ∧
      p2.logged = p.logged ++
        [(LogLevel.DEBUG, "raft leader is " ++ logHint ++ "; state: " ++ role.String)] ∧
      (logHint = hint ++ " (this host)" ↔ role = RaftState.Leader) ∧
      (logHint = hint ↔ role ≠ RaftState.Leader) ∧
      p2.expvars "raft.leader" ≠ some (ExpVar.StringVar (hint ++ " (this host)")) := by
  obtain ⟨st, r, hs, hr, hrole⟩ := raft_of_GetState p role hstate
  have hl : r.Leader = hint := by
    have := GetLeader_of_raft p st r hs hr
    rw [hleader] at this
    exact (Option.some.inj this).symm
  have hne : hint ++ " (this host)" ≠ hint := append_ne_self hint " (this host)" (by decide)
  refine ⟨_, if role = RaftState.Leader then hint ++ " (this host)" else hint,
    MonitorTick_eq p st r hs hr hv, ?_, ?_, ?_, ?_, ?_⟩
  · simp [setKey, hl]
  · by_cases h : role = RaftState.Leader <;>
      simp [hrole, hl, h, fmt.Sprintf_raft_leader_is, fmt.Sprintf_s_this_host]
  · by_cases h : role = RaftState.Leader
    · simp [h]
    · simp [h, hne.symm]
  · by_cases h : role = RaftState.Leader
    · simp [h, hne]
    · simp [h]
  · simp [setKey, hl, hne.symm]

/-- C9 on a leader whose variable held an older hint: the variable gets the raw
hint and the log entry the annotated one. -/
theorem MonitorTick_publishes_raw_leader_witness :
    ∃ p2, MonitorTick (monitoredProcess ⟨"node1:10008", RaftState.Leader⟩) = some p2 ∧
      p2.expvars "raft.leader" = some (ExpVar.StringVar "node1:10008") ∧
      p2.logged =
        [(LogLevel.DEBUG, "raft leader is node1:10008 (this host); state: Leader")] := by
  obtain ⟨p2, logHint, h1, h2, h3, h4, _, _⟩ :=
    MonitorTick_publishes_raw_leader (monitoredProcess ⟨"node1:10008", RaftState.Leader⟩)
      "node1:10008" RaftState.Leader (by decide) (by decide) (by decide)
  refine ⟨p2, h1, h2, ?_⟩
  rw [h3, h4.mpr rfl]
  decide

end Freno
